import Mathlib

/-!
# Dj-Controller: a shallow embedding of the audio core

This file embeds, in Lean 4, the parts of the Dj-Controller repository that
its specification talks about:

* `src/audio/trackLibrary.js` — the track cache (`TrackLibrary`):
  descriptors, payload caching, `loadPreset`, `removeTrack`;
* `src/audio/deck.js` — the `Deck` playback unit: `loadTrack`, `play`,
  `stop`, `setVolume`, `setFilter`, EQ setters, `setPlaybackRate`,
  `scratch`, `resetPlaybackRate`;
* `src/audio/audioEngine.js` — `setMasterVolume`;
* `src/main.js` — `setCrossfader` and `assignTrackToDeck`.

Modelling conventions:

* JS numbers are modelled as `ℚ` wherever the code only adds, subtracts,
  multiplies, divides, compares and clamps them.  The one place the code
  uses `Math.pow` with a fractional exponent (the filter's logarithmic
  cutoff sweep) is modelled over `ℝ` with `Real.rpow`.
* A decoded `AudioBuffer` is opaque to all the control logic, so it is
  modelled as a `Nat` payload identifier.
* `audioEngine.getCurrentTime()` is an input: every operation that reads
  the clock takes an explicit `now : ℚ` argument.
* A Web-Audio `AudioParam` written with `setTargetAtTime(v, now, τ)` is
  modelled by its *target* value `v` (the smoothing ramp itself is
  real-time behaviour outside the state model); the field names below end
  in `Target` for those parameters.
* `await`-ing an external fetch/decode (`audioEngine.loadAudio`) is
  modelled by an environment `env : String → Except Unit Nat` mapping a
  URL to a decode failure or a decoded payload, together with a counter of
  how many fetch/decode operations a call performed.
-/

/-! ## Track cache (`src/audio/trackLibrary.js`) -/

/-- `TrackSource` from trackLibrary.js: `'preset' | 'user_upload'`. -/
inductive TrackSource where
  | preset
  | user_upload
deriving DecidableEq, Repr

/-- One entry of the `tracks` map in `TrackLibrary`: metadata plus the
lazily cached decoded payload (`buffer`, a `Nat` payload id here) and the
`isLoaded` flag. -/
structure Track where
  name : String
  sourceType : TrackSource
  url : String
  buffer : Option Nat
  isLoaded : Bool
deriving DecidableEq, Repr

/-- The `TrackLibrary` state: the `tracks` map (`Map` in JS), modelled as a
function from ids to optional entries. -/
structure TrackLibrary where
  tracks : String → Option Track

/-- `Map.set` on the `tracks` map (also models in-place mutation of the
entry stored under `id`, which is how `loadPreset` updates the cache). -/
def TrackLibrary.set (lib : TrackLibrary) (id : String) (t : Track) : TrackLibrary :=
  ⟨fun k => if k = id then some t else lib.tracks k⟩

/-- `Map.delete` on the `tracks` map (used by `removeTrack`). -/
def TrackLibrary.erase (lib : TrackLibrary) (id : String) : TrackLibrary :=
  ⟨fun k => if k = id then none else lib.tracks k⟩

/-- The errors `loadPreset` can throw: `Track not found`, `Track … is not a
preset`, and a rethrown fetch/decode failure. -/
inductive LoadError where
  | notFound (id : String)
  | notPreset (id : String)
  | loadFailed
deriving DecidableEq, Repr

/-- Result of one `loadPreset` call: the returned buffer or thrown error,
the library state after the call, and how many fetch+decode operations
(`audioEngine.loadAudio` calls) the call performed. -/
structure ResolveResult where
  result : Except LoadError Nat
  lib : TrackLibrary
  fetches : Nat

/-- `TrackLibrary.loadPreset(id)` (trackLibrary.js, lines 81–112), run to
completion with the external fetch+decode modelled by `env`:

```js
const track = this.tracks.get(id);
if (!track) throw new Error(`Track not found: ${id}`);
if (track.sourceType !== TrackSource.PRESET) throw new Error(…);
if (track.isLoaded && track.buffer) return track.buffer;   // cache hit
try {
  const buffer = await audioEngine.loadAudio(track.url);
  track.buffer = buffer; track.isLoaded = true;            // cache store
  return buffer;
} catch (error) { throw error; }
```
-/
def TrackLibrary.loadPreset (lib : TrackLibrary) (env : String → Except Unit Nat)
    (id : String) : ResolveResult :=
  match lib.tracks id with
  | none => ⟨.error (.notFound id), lib, 0⟩
  | some track =>
    if track.sourceType ≠ TrackSource.preset then
      ⟨.error (.notPreset id), lib, 0⟩
    else
      match track.isLoaded, track.buffer with
      | true, some b => ⟨.ok b, lib, 0⟩
      | _, _ =>
        match env track.url with
        | .error _ => ⟨.error .loadFailed, lib, 1⟩
        | .ok buf => ⟨.ok buf, lib.set id { track with buffer := some buf, isLoaded := true }, 1⟩

/-- `TrackLibrary.removeTrack(id)` (trackLibrary.js, lines 186–202):

```js
const track = this.tracks.get(id);
if (!track) return false;
if (track.sourceType === TrackSource.PRESET) { console.warn(…); return false; }
this.tracks.delete(id);
return true;
```
Returns the JS boolean result paired with the library state after the call. -/
def TrackLibrary.removeTrack (lib : TrackLibrary) (id : String) : Bool × TrackLibrary :=
  match lib.tracks id with
  | none => (false, lib)
  | some track =>
    if track.sourceType = TrackSource.preset then (false, lib)
    else (true, lib.erase id)

/-! ### The two halves of `loadPreset` around its `await`

JS is single-threaded: a `loadPreset` call runs atomically from entry up to
`await audioEngine.loadAudio(track.url)` (phase 1), suspends, and on
completion of the fetch runs atomically to the end (phase 2).  Modelling
the two phases separately lets interleavings of two concurrent calls be
stated exactly.  The `loadPreset_phases_err` / `loadPreset_phases_cached` /
`loadPreset_phases_mustFetch` lemmas below prove the split agrees with the
sequential `loadPreset`. -/

/-- Outcome of phase 1 of `loadPreset`: a thrown error, a cache hit, or
"must fetch" carrying the captured `track` object. -/
inductive Phase1 where
  | err (e : LoadError)
  | cached (b : Nat)
  | mustFetch (track : Track)
deriving DecidableEq, Repr

/-- Phase 1 of `loadPreset`: everything before the `await` — lookup, the
two validity checks and the cache check.  Performs no state write. -/
def TrackLibrary.loadPresetPhase1 (lib : TrackLibrary) (id : String) : Phase1 :=
  match lib.tracks id with
  | none => .err (.notFound id)
  | some track =>
    if track.sourceType ≠ TrackSource.preset then .err (.notPreset id)
    else
      match track.isLoaded, track.buffer with
      | true, some b => .cached b
      | _, _ => .mustFetch track

/-- Phase 2 of `loadPreset`: the continuation after
`await audioEngine.loadAudio(track.url)` completes with `res`.  On success
it stores the payload on the captured `track` object (which is the entry
under `id`) and returns the payload; on failure it rethrows, touching no
state. -/
def TrackLibrary.loadPresetPhase2 (lib : TrackLibrary) (id : String) (track : Track)
    (res : Except Unit Nat) : Except LoadError Nat × TrackLibrary :=
  match res with
  | .error _ => (.error .loadFailed, lib)
  | .ok buf => (.ok buf, lib.set id { track with buffer := some buf, isLoaded := true })

/-- Outcome of two interleaved `loadPreset` calls for the same id: the two
callers' results, the final library state, and the total number of
fetch+decode operations performed. -/
structure ConcurrentOutcome where
  result1 : Except LoadError Nat
  result2 : Except LoadError Nat
  lib : TrackLibrary
  fetches : Nat

/-- Two concurrent `loadPreset(id)` calls, interleaved as the JS event loop
runs them: caller 1 runs phase 1 and (if uncached) starts its fetch;
caller 2 then runs phase 1 against the *unchanged* state (phase 1 writes
nothing) and starts its own fetch; the fetches complete in order and each
caller's phase 2 runs.  Since both phase-1 runs see the same state, the
single `match` below covers both callers.  `env1`/`env2` are the two
fetches' outcomes. -/
def TrackLibrary.concurrentLoadPreset (lib : TrackLibrary) (id : String)
    (env1 env2 : String → Except Unit Nat) : ConcurrentOutcome :=
  match lib.loadPresetPhase1 id with
  | .err e => ⟨.error e, .error e, lib, 0⟩
  | .cached b => ⟨.ok b, .ok b, lib, 0⟩
  | .mustFetch track =>
    let x1 := lib.loadPresetPhase2 id track (env1 track.url)
    let x2 := x1.2.loadPresetPhase2 id track (env2 track.url)
    ⟨x1.1, x2.1, x2.2, 2⟩

/-! ## Deck (`src/audio/deck.js`)

The deck's filter stage is modelled separately below (`setFilter` is a pure
function of its argument — every branch fully overwrites the filter node's
type, frequency target and Q target and the `filterState` record), keeping
the `Deck` record itself over `ℚ`/`Bool`/`Option` so that concrete deck
states are decidable. -/

/-- The live `AudioBufferSourceNode` created by `play()`: the buffer it
plays, the start offset passed to `source.start(0, offset)`, and the
`playbackRate` param's target value. -/
structure Source where
  buffer : Nat
  startOffset : ℚ
  rateTarget : ℚ
deriving DecidableEq, Repr

/-- The `Deck` state from deck.js (constructor, lines 13–46 and
`_initNodes`): playback state plus the per-control parameter targets.
`gainTarget` is the channel fader (`gainNode.gain`), `deckGainTarget` the
crossfader-controlled `deckGainNode.gain`, and the three `eq*GainDB`
fields the peaking filters' gain targets (also mirrored in `eqState`). -/
structure Deck where
  audioBuffer : Option Nat
  source : Option Source
  isPlaying : Bool
  startTime : ℚ
  pauseTime : ℚ
  playbackRate : ℚ
  gainTarget : ℚ
  deckGainTarget : ℚ
  eqLowGainDB : ℚ
  eqMidGainDB : ℚ
  eqHighGainDB : ℚ
deriving DecidableEq, Repr

/-- A freshly constructed deck: `new Deck(name)` after `_initNodes`
(`gainNode.gain.value = 0.8`, `deckGainNode.gain.value = 1.0`, EQ gains
neutral, `isPlaying = false`, `startTime = pauseTime = 0`,
`playbackRate = 1.0`, no buffer, no source). -/
def Deck.init : Deck :=
  { audioBuffer := none
    source := none
    isPlaying := false
    startTime := 0
    pauseTime := 0
    playbackRate := 1
    gainTarget := 4/5
    deckGainTarget := 1
    eqLowGainDB := 0
    eqMidGainDB := 0
    eqHighGainDB := 0 }

/-- `Deck.stop()` (deck.js, lines 142–154), with `now` the value of
`audioEngine.getCurrentTime()`:

```js
if (!this.isPlaying || !this.source) return;
this.source.stop(); this.source.disconnect(); this.source = null;
this.pauseTime = audioEngine.getCurrentTime() - this.startTime;
this.isPlaying = false;
```
-/
def Deck.stop (d : Deck) (now : ℚ) : Deck :=
  match d.isPlaying, d.source with
  | true, some _ =>
    { d with source := none, pauseTime := now - d.startTime, isPlaying := false }
  | _, _ => d

/-- `Deck.play()` (deck.js, lines 114–137):

```js
if (!this.audioBuffer) return;
if (this.isPlaying) return;
this.source = audioEngine.context.createBufferSource();
this.source.buffer = this.audioBuffer;
this.source.playbackRate.value = this.playbackRate;
…
this.startTime = audioEngine.getCurrentTime() - this.pauseTime;
this.source.start(0, this.pauseTime);
this.isPlaying = true;
```
-/
def Deck.play (d : Deck) (now : ℚ) : Deck :=
  match d.audioBuffer with
  | none => d
  | some buf =>
    if d.isPlaying then d
    else
      { d with
        source := some ⟨buf, d.pauseTime, d.playbackRate⟩
        startTime := now - d.pauseTime
        isPlaying := true }

/-- `Deck.loadTrack(audioBuffer)` (deck.js, lines 104–109): `this.stop()`,
bind the new buffer, `this.pauseTime = 0`. -/
def Deck.loadTrack (d : Deck) (now : ℚ) (buf : Nat) : Deck :=
  { d.stop now with audioBuffer := some buf, pauseTime := 0 }

/-- `Deck.setVolume(value)` (deck.js, lines 161–171): clamps to `[0,1]` and
sets it as the channel gain target (`setTargetAtTime`, 15 ms). -/
def Deck.setVolume (d : Deck) (value : ℚ) : Deck :=
  { d with gainTarget := max 0 (min 1 value) }

/-- The shared EQ mapping of `setEQLow`/`setEQMid`/`setEQHigh` (deck.js,
lines 255–308): `gainDB = (normalizedValue - 0.5) * 24`, applied to the
*unclamped* argument. -/
def eqGainDB (normalizedValue : ℚ) : ℚ :=
  (normalizedValue - 1/2) * 24

/-- `Deck.setEQLow(normalizedValue)` (deck.js, lines 255–268). -/
def Deck.setEQLow (d : Deck) (v : ℚ) : Deck :=
  { d with eqLowGainDB := eqGainDB v }

/-- `Deck.setEQMid(normalizedValue)` (deck.js, lines 275–288). -/
def Deck.setEQMid (d : Deck) (v : ℚ) : Deck :=
  { d with eqMidGainDB := eqGainDB v }

/-- `Deck.setEQHigh(normalizedValue)` (deck.js, lines 295–308). -/
def Deck.setEQHigh (d : Deck) (v : ℚ) : Deck :=
  { d with eqHighGainDB := eqGainDB v }

/-- `Deck.setPlaybackRate(rate)` (deck.js, lines 315–326): clamp to
`[0.25, 4.0]`, store as the baseline `playbackRate`, and if a source is
live, ramp its rate param to the clamped value. -/
def Deck.setPlaybackRate (d : Deck) (rate : ℚ) : Deck :=
  let clamped := max (1/4) (min 4 rate)
  let d' := { d with playbackRate := clamped }
  match d'.source, d'.isPlaying with
  | some s, true => { d' with source := some { s with rateTarget := clamped } }
  | _, _ => d'

/-- `Deck.scratch(delta, sensitivity)` (deck.js, lines 334–348):

```js
const newRate = 1.0 + delta * sensitivity;
const clampedRate = Math.max(0.25, Math.min(4.0, newRate));
this.playbackRate = clampedRate;
if (this.source && this.isPlaying) { … setTargetAtTime(clampedRate, now, 0.01); }
```
-/
def Deck.scratch (d : Deck) (delta sensitivity : ℚ) : Deck :=
  let newRate := 1 + delta * sensitivity
  let clampedRate := max (1/4) (min 4 newRate)
  let d' := { d with playbackRate := clampedRate }
  match d'.source, d'.isPlaying with
  | some s, true => { d' with source := some { s with rateTarget := clampedRate } }
  | _, _ => d'

/-- `Deck.resetPlaybackRate()` (deck.js, lines 354–371): ramp the live rate
back to 1.0 and reset the stored `playbackRate` to 1.0. -/
def Deck.resetPlaybackRate (d : Deck) : Deck :=
  match d.source, d.isPlaying with
  | some s, true => { d with source := some { s with rateTarget := 1 }, playbackRate := 1 }
  | _, _ => { d with playbackRate := 1 }

/-! ## Mixing bus (`src/main.js`, `src/audio/audioEngine.js`) -/

/-- `setCrossfader(value)` (main.js, lines 175–195): clamp to `[0,1]`,
then linear law — deck-A bus gain target `1 - value`, deck-B bus gain
target `value`, both via `setTargetAtTime` (15 ms).  Returns the stored
`crossfaderValue` together with the two updated decks. -/
def setCrossfader (d1 d2 : Deck) (value : ℚ) : ℚ × Deck × Deck :=
  let crossfaderValue := max 0 (min 1 value)
  let deckAGain := 1 - crossfaderValue
  let deckBGain := crossfaderValue
  (crossfaderValue,
   { d1 with deckGainTarget := deckAGain },
   { d2 with deckGainTarget := deckBGain })

/-- `AudioEngine.setMasterVolume(value)` (audioEngine.js, lines 67–71):
`Math.max(0, Math.min(1, value))` written directly to the master gain. -/
def setMasterVolume (value : ℚ) : ℚ :=
  max 0 (min 1 value)

/-- The deck-mutating steps of `assignTrackToDeck(deckId, trackId)`
(main.js, lines 32–94) once the buffer `buf` has been obtained, for the
deck being reassigned:

```js
const wasPlaying = deck.isPlaying;
if (wasPlaying) { … gain.setTargetAtTime(0, now, 0.03); await sleep(100); }
deck.stop(); deck.loadTrack(buffer);
if (wasPlaying) { deck.play(); … gain.setTargetAtTime(0.8, now, 0.03); }
```
`tStop` is the clock value when `deck.stop()` runs, `tPlay` when
`deck.play()` runs. -/
def assignTrackToDeck (d : Deck) (buf : Nat) (tStop tPlay : ℚ) : Deck :=
  let wasPlaying := d.isPlaying
  let d1 := if wasPlaying then { d with gainTarget := 0 } else d
  let d2 := (d1.stop tStop).loadTrack tStop buf
  if wasPlaying then { d2.play tPlay with gainTarget := 4/5 } else d2

/-! ## Filter stage (`Deck.setFilter`, deck.js lines 184–248)

`setFilter(normalizedValue)` reads none of the previous filter state —
every branch fully overwrites the biquad node's `type`, `frequency` target
and `Q` target, and the `filterState` record — so it is embedded as a pure
function of its argument.  The logarithmic sweeps use `Math.pow` with a
fractional exponent, modelled with `Real.rpow` (hence `noncomputable`; the
zone logic itself stays over `ℚ` and is decidable). -/

/-- `filterState.type`: `'bypass' | 'lowpass' | 'highpass'`. -/
inductive FilterMode where
  | bypass
  | lowpass
  | highpass
deriving DecidableEq, Repr

/-- The biquad node's `type`: `'lowpass' | 'highpass'` (the bypass zone
sets the node to `lowpass` at 20 kHz). -/
inductive BiquadType where
  | lowpass
  | highpass
deriving DecidableEq, Repr

/-- The outcome of one `setFilter` call: the biquad node's type, frequency
target and Q target, plus the `filterState` record (its `type` and
`frequency` mirror, and the stored `normalizedValue`). -/
structure FilterSetting where
  nodeType : BiquadType
  freqTarget : ℝ
  qTarget : ℝ
  stateType : FilterMode
  stateFrequency : ℝ
  normalizedValue : ℚ

/-- `Deck.setFilter(normalizedValue)` (deck.js, lines 184–248):

```js
const bypassZone = 0.05, bypassCenter = 0.5;
if (Math.abs(v - bypassCenter) < bypassZone) {        // BYPASS (0.45–0.55)
  type = 'lowpass'; frequency → 20000; Q → 0.1; state = bypass/20000;
} else if (v < bypassCenter) {                        // LOW-PASS (0–0.45)
  type = 'lowpass';
  const t = v / (bypassCenter - bypassZone);          // = v / 0.45
  frequency → 250 * Math.pow(20000/250, t); Q → 1.0;
} else {                                              // HIGH-PASS (0.55–1)
  type = 'highpass';
  const t = (v - bypassCenter - bypassZone) / (bypassCenter - bypassZone);
  frequency → 20 * Math.pow(8000/20, t); Q → 1.0;
}
this.filterState.normalizedValue = v;
```
-/
noncomputable def setFilter (v : ℚ) : FilterSetting :=
  let bypassZone : ℚ := 1/20
  let bypassCenter : ℚ := 1/2
  if |v - bypassCenter| < bypassZone then
    ⟨.lowpass, 20000, 1/10, .bypass, 20000, v⟩
  else if v < bypassCenter then
    let t : ℚ := v / (bypassCenter - bypassZone)
    let frequency : ℝ := 250 * (20000/250 : ℝ) ^ (t : ℝ)
    ⟨.lowpass, frequency, 1, .lowpass, frequency, v⟩
  else
    let t : ℚ := (v - bypassCenter - bypassZone) / (bypassCenter - bypassZone)
    let frequency : ℝ := 20 * (8000/20 : ℝ) ^ (t : ℝ)
    ⟨.highpass, frequency, 1, .highpass, frequency, v⟩

/-! ## Concrete states used by witnesses and counterexamples -/

/-- A deck that is live and audible: track loaded, source playing from the
track start at normal rate (the state reached by `loadTrack` + `play`),
with the channel fader at 1/2. -/
def playingDeck : Deck :=
  { Deck.init with
    audioBuffer := some 1
    source := some ⟨1, 0, 1⟩
    isPlaying := true
    gainTarget := 1/2 }

/-- The preset descriptor `{id:'preset_1', name:'Mist', url:'/audio/Mist.mp3'}`
(presets.js) after `_initializePresets`, before any load: no payload. -/
def mistUncached : Track :=
  { name := "Mist"
    sourceType := TrackSource.preset
    url := "/audio/Mist.mp3"
    buffer := none
    isLoaded := false }

/-- The same preset descriptor after a successful load cached payload `7`. -/
def mistCached : Track :=
  { mistUncached with buffer := some 7, isLoaded := true }

/-- A user-uploaded track entry (payload attached at creation). -/
def userTrack : Track :=
  { name := "MySong"
    sourceType := TrackSource.user_upload
    url := ""
    buffer := some 9
    isLoaded := true }

/-- A library holding the uncached preset under id `"preset_1"`. -/
def libUncached : TrackLibrary :=
  ⟨fun k => if k = "preset_1" then some mistUncached else none⟩

/-- A library holding the cached preset under id `"preset_1"` and a
user-uploaded track under id `"user_1"`. -/
def libCached : TrackLibrary :=
  ⟨fun k =>
    if k = "preset_1" then some mistCached
    else if k = "user_1" then some userTrack
    else none⟩

/-- An environment in which every fetch+decode succeeds with payload 7. -/
def envOk7 : String → Except Unit Nat := fun _ => .ok 7

/-- An environment in which every fetch+decode succeeds with payload 8. -/
def envOk8 : String → Except Unit Nat := fun _ => .ok 8

/-- An environment in which every fetch+decode fails. -/
def envFail : String → Except Unit Nat := fun _ => .error ()

/-! ## Helper lemmas -/

/-- Updating the `tracks` map and reading the same key back. -/
theorem TrackLibrary.set_tracks_self (lib : TrackLibrary) (id : String) (t : Track) :
    (lib.set id t).tracks id = some t := by
  simp [TrackLibrary.set]

/-- `removeTrack`'s `Map.delete` removes the entry. -/
theorem TrackLibrary.erase_tracks_self (lib : TrackLibrary) (id : String) :
    (lib.erase id).tracks id = none := by
  simp [TrackLibrary.erase]

/-- The sequential `loadPreset` agrees with its phase split, error case:
if phase 1 throws, the whole call throws that error, touches no state and
performs no fetch. -/
theorem loadPreset_phases_err (lib : TrackLibrary) (env : String → Except Unit Nat)
    (id : String) (e : LoadError) (h : lib.loadPresetPhase1 id = .err e) :
    lib.loadPreset env id = ⟨.error e, lib, 0⟩ := by
  unfold TrackLibrary.loadPresetPhase1 at h
  unfold TrackLibrary.loadPreset
  rcases htr : lib.tracks id with _ | track <;> rw [htr] at h
  · cases h; rfl
  · by_cases hsrc : track.sourceType = TrackSource.preset
    · simp only [hsrc, ne_eq, not_true_eq_false, ite_false] at h
      rcases hl : track.isLoaded with _ | _ <;> rcases hb : track.buffer with _ | b <;>
        rw [hl, hb] at h <;> cases h
    · simp [hsrc] at h ⊢
      exact h

/-- The sequential `loadPreset` agrees with its phase split, cache-hit
case: if phase 1 hits the cache, the whole call returns the cached
payload, touches no state and performs no fetch. -/
theorem loadPreset_phases_cached (lib : TrackLibrary) (env : String → Except Unit Nat)
    (id : String) (b : Nat) (h : lib.loadPresetPhase1 id = .cached b) :
    lib.loadPreset env id = ⟨.ok b, lib, 0⟩ := by
  unfold TrackLibrary.loadPresetPhase1 at h
  unfold TrackLibrary.loadPreset
  rcases htr : lib.tracks id with _ | track <;> rw [htr] at h
  · cases h
  · by_cases hsrc : track.sourceType = TrackSource.preset
    · simp only [hsrc, ne_eq, not_true_eq_false, ite_false] at h ⊢
      rcases hl : track.isLoaded with _ | _ <;> rcases hb : track.buffer with _ | b' <;>
        rw [hl, hb] at h <;> cases h <;> rfl
    · simp [hsrc] at h

/-- The sequential `loadPreset` agrees with its phase split, fetch case:
if phase 1 must fetch, the whole call performs exactly one fetch and
finishes as phase 2 of that fetch's outcome. -/
theorem loadPreset_phases_mustFetch (lib : TrackLibrary) (env : String → Except Unit Nat)
    (id : String) (tr : Track) (h : lib.loadPresetPhase1 id = .mustFetch tr) :
    lib.loadPreset env id =
      ⟨(lib.loadPresetPhase2 id tr (env tr.url)).1,
       (lib.loadPresetPhase2 id tr (env tr.url)).2, 1⟩ := by
  unfold TrackLibrary.loadPresetPhase1 at h
  unfold TrackLibrary.loadPreset TrackLibrary.loadPresetPhase2
  rcases htr : lib.tracks id with _ | track <;> rw [htr] at h
  · cases h
  · by_cases hsrc : track.sourceType = TrackSource.preset
    · simp only [hsrc, ne_eq, not_true_eq_false, ite_false] at h ⊢
      rcases hl : track.isLoaded with _ | _ <;> rcases hb : track.buffer with _ | b' <;>
        rw [hl, hb] at h <;> cases h <;> simp only [hsrc] <;>
        rcases he : env tr.url with _ | buf <;> rfl
    · simp [hsrc] at h

/-! ## C2 — crossfader linear law -/

/-- C2: for every `x`, `setCrossfader` first clamps `x` to `[0,1]` and then
applies the linear law: deck-A bus gain target `1 - x`, deck-B bus gain
target `x`; in particular `x = 0` solos deck A (targets `1`/`0`) and
`x = 1` solos deck B (targets `0`/`1`). -/
theorem setCrossfader_linear_law (d1 d2 : Deck) (x : ℚ) :
    ((setCrossfader d1 d2 x).2.1.deckGainTarget = 1 - max 0 (min 1 x)
      ∧ (setCrossfader d1 d2 x).2.2.deckGainTarget = max 0 (min 1 x))
    ∧ (0 ≤ x → x ≤ 1 →
        (setCrossfader d1 d2 x).2.1.deckGainTarget = 1 - x
          ∧ (setCrossfader d1 d2 x).2.2.deckGainTarget = x)
    ∧ ((setCrossfader d1 d2 0).2.1.deckGainTarget = 1
      ∧ (setCrossfader d1 d2 0).2.2.deckGainTarget = 0)
    ∧ ((setCrossfader d1 d2 1).2.1.deckGainTarget = 0
      ∧ (setCrossfader d1 d2 1).2.2.deckGainTarget = 1) := by
  refine ⟨⟨rfl, rfl⟩, ?_, ?_, ?_⟩
  · intro h0 h1
    have hc : max 0 (min 1 x) = x := by
      rw [min_eq_right h1, max_eq_right h0]
    constructor <;> simp [setCrossfader, hc]
  · constructor <;> norm_num [setCrossfader]
  · constructor <;> norm_num [setCrossfader]

/-- Witness for C2 at `x = 3/10` on two fresh decks. -/
theorem setCrossfader_linear_law_witness :
    (setCrossfader Deck.init Deck.init (3/10)).2.1.deckGainTarget = 1 - 3/10
      ∧ (setCrossfader Deck.init Deck.init (3/10)).2.2.deckGainTarget = 3/10 :=
  (setCrossfader_linear_law Deck.init Deck.init (3/10)).2.1 (by norm_num) (by norm_num)

/-! ## C4 — scratch is sticky, not transient -/

/-- C4 counterexample: the claim says `scratch` leaves the stored baseline
playback rate unchanged, but on a deck whose baseline was set to `2.0` by
`setPlaybackRate`, `scratch(0.1, 3.0)` overwrites the stored rate
(`this.playbackRate = clampedRate` in deck.js line 338) with `1.3`. -/
theorem scratch_changes_stored_rate_cx :
    ((Deck.init.setPlaybackRate 2).scratch (1/10) 3).playbackRate ≠
      (Deck.init.setPlaybackRate 2).playbackRate := by
  have e1 : ((Deck.init.setPlaybackRate 2).scratch (1/10) 3).playbackRate
      = max (1/4) (min 4 (1 + (1/10) * 3)) := by
    simp [Deck.scratch, Deck.setPlaybackRate, Deck.init]
  have e2 : (Deck.init.setPlaybackRate 2).playbackRate = max (1/4) (min 4 2) := by
    simp [Deck.setPlaybackRate, Deck.init]
  rw [e1, e2]
  norm_num [min_def, max_def]

/-- C4 (amended): for every `delta ∈ [-1,1]` and `sensitivity`,
`scratch(delta, sensitivity)` computes `clamp(1 + delta·sensitivity,
0.25, 4.0)`, applies it as the live source's rate target when a source is
playing, and also overwrites the deck's stored baseline `playbackRate`
with that same clamped value (sticky until `resetPlaybackRate`). -/
theorem scratch_clamps_and_stores (d : Deck) (delta sensitivity : ℚ)
    (hd1 : -1 ≤ delta) (hd2 : delta ≤ 1) :
    (d.scratch delta sensitivity).playbackRate
        = max (1/4) (min 4 (1 + delta * sensitivity))
    ∧ (∀ s, d.source = some s → d.isPlaying = true →
        (d.scratch delta sensitivity).source
          = some { s with rateTarget := max (1/4) (min 4 (1 + delta * sensitivity)) }) := by
  constructor
  · rcases hs : d.source with _ | s <;> rcases hp : d.isPlaying with _ | _ <;>
      simp [Deck.scratch, hs, hp]
  · intro s hs hp
    simp [Deck.scratch, hs, hp]

/-- Witness for C4 (amended) on a playing deck with `delta = 1/2`,
`sensitivity = 3`: the stored rate and the live rate target both become
`min 4 (5/2) = 5/2`. -/
theorem scratch_clamps_and_stores_witness :
    (playingDeck.scratch (1/2) 3).playbackRate
        = max (1/4) (min 4 (1 + (1/2) * 3))
    ∧ (∀ s, playingDeck.source = some s → playingDeck.isPlaying = true →
        (playingDeck.scratch (1/2) 3).source
          = some { s with rateTarget := max (1/4) (min 4 (1 + (1/2) * 3)) }) :=
  scratch_clamps_and_stores playingDeck (1/2) 3 (by norm_num) (by norm_num)

/-! ## C6 — clamping discipline of the numeric controls -/

/-- C6 counterexample: the claim extends the clamp-to-documented-range
discipline to `setEQLow/Mid/High`, whose documented range is −12 dB…+12 dB,
but `setEQLow(1.7)` stores the unclamped `(1.7 − 0.5) × 24 = 28.8` dB. -/
theorem setEQLow_not_clamped_cx :
    (Deck.init.setEQLow (17/10)).eqLowGainDB = 144/5
    ∧ ¬ (Deck.init.setEQLow (17/10)).eqLowGainDB ≤ 12 := by
  constructor
  · show ((17:ℚ)/10 - 1/2) * 24 = 144/5
    norm_num
  · show ¬ ((17:ℚ)/10 - 1/2) * 24 ≤ 12
    norm_num

/-- C6 (amended): `setVolume`, `setPlaybackRate`, `setCrossfader` and
`setMasterVolume` clamp out-of-range numeric arguments to their documented
ranges instead of raising an error — `setVolume(-0.3) → 0`,
`setVolume(1.7) → 1`, `setPlaybackRate(10) → 4`,
`setPlaybackRate(0.01) → 0.25` — while `setEQLow/Mid/High` and `setFilter`
are equally error-free but apply their mapping to the raw, unclamped
argument: the EQ setters store `(v − 0.5)·24` for every `v`, and
`setFilter` feeds every argument above 1 (below 0) into the high-pass
(low-pass) sweep formula at the raw value, so that e.g. `setFilter(1.7)`
targets a cutoff above the documented 8 kHz high-pass maximum. -/
theorem numeric_controls_clamp (d : Deck) (v : ℚ) :
    ((d.setVolume (-(3/10))).gainTarget = 0 ∧ (d.setVolume (17/10)).gainTarget = 1)
    ∧ ((d.setPlaybackRate 10).playbackRate = 4
      ∧ (d.setPlaybackRate (1/100)).playbackRate = 1/4)
    ∧ (d.setVolume v).gainTarget = max 0 (min 1 v)
    ∧ (d.setPlaybackRate v).playbackRate = max (1/4) (min 4 v)
    ∧ setMasterVolume v = max 0 (min 1 v)
    ∧ (∀ d2, (setCrossfader d d2 v).2.2.deckGainTarget = max 0 (min 1 v))
    ∧ (d.setEQLow v).eqLowGainDB = (v - 1/2) * 24
    ∧ (d.setEQMid v).eqMidGainDB = (v - 1/2) * 24
    ∧ (d.setEQHigh v).eqHighGainDB = (v - 1/2) * 24
    ∧ (∀ w : ℚ, 1 < w →
        (setFilter w).nodeType = BiquadType.highpass
        ∧ (setFilter w).freqTarget = 20 * (8000/20 : ℝ) ^ (((w : ℝ) - 11/20) / (9/20)))
    ∧ (∀ w : ℚ, w < 0 →
        (setFilter w).nodeType = BiquadType.lowpass
        ∧ (setFilter w).freqTarget = 250 * (20000/250 : ℝ) ^ ((w : ℝ) / (9/20)))
    ∧ 8000 < (setFilter (17/10)).freqTarget := by
  have hrate : ∀ r : ℚ, (d.setPlaybackRate r).playbackRate = max (1/4) (min 4 r) := by
    intro r
    rcases hs : d.source with _ | s <;> rcases hp : d.isPlaying with _ | _ <;>
      simp [Deck.setPlaybackRate, hs, hp]
  refine ⟨⟨?_, ?_⟩, ⟨?_, ?_⟩, rfl, hrate v, rfl, fun d2 => rfl, rfl, rfl, rfl,
    ?_, ?_, ?_⟩
  · norm_num [Deck.setVolume]
  · norm_num [Deck.setVolume]
  · rw [hrate]; norm_num
  · rw [hrate]; norm_num
  · intro w hw
    have hnb : ¬ (|w - (1/2 : ℚ)| < 1/20) := by
      intro hc
      rw [abs_lt] at hc
      linarith [hc.2]
    have hge : ¬ (w < (1/2 : ℚ)) := by linarith
    simp only [setFilter]
    rw [if_neg hnb, if_neg hge]
    refine ⟨rfl, ?_⟩
    push_cast
    ring_nf
  · intro w hw
    have hnb : ¬ (|w - (1/2 : ℚ)| < 1/20) := by
      intro hc
      rw [abs_lt] at hc
      linarith [hc.1]
    have hlt : w < (1/2 : ℚ) := by linarith
    simp only [setFilter]
    rw [if_neg hnb, if_pos hlt]
    refine ⟨rfl, ?_⟩
    push_cast
    norm_num
  · have hnb : ¬ (|(17/10 : ℚ) - 1/2| < 1/20) := by
      rw [abs_lt]
      intro hc
      linarith [hc.2]
    have hge : ¬ ((17/10 : ℚ) < 1/2) := by norm_num
    simp only [setFilter]
    rw [if_neg hnb, if_neg hge]
    have hexp : (((17:ℚ)/10 - 1/2 - 1/20) / (1/2 - 1/20) : ℚ) = 23/9 := by norm_num
    rw [hexp]
    have hcast : (((23:ℚ)/9 : ℚ) : ℝ) = (23/9 : ℝ) := by
      push_cast
      norm_num
    rw [hcast]
    have hbase : ((8000:ℝ)/20) = 400 := by norm_num
    rw [hbase]
    have hpow : (400:ℝ) ^ (1:ℝ) < 400 ^ (23/9 : ℝ) := by
      rw [Real.rpow_lt_rpow_left_iff (by norm_num : (1:ℝ) < 400)]
      norm_num
    have h8000 : (8000:ℝ) = 20 * 400 ^ (1:ℝ) := by
      rw [Real.rpow_one]
      norm_num
    rw [h8000]
    exact (mul_lt_mul_left (by norm_num : (0:ℝ) < 20)).mpr hpow

/-- Witness for C6 (amended): the raw out-of-range argument `1.7` reaches
`setFilter`'s high-pass formula unclamped. -/
theorem numeric_controls_clamp_witness :
    (setFilter (17/10)).nodeType = BiquadType.highpass
    ∧ (setFilter (17/10)).freqTarget
        = 20 * (8000/20 : ℝ) ^ ((((17/10 : ℚ) : ℝ) - 11/20) / (9/20)) :=
  (numeric_controls_clamp Deck.init 0).2.2.2.2.2.2.2.2.2.1 (17/10) (by norm_num)

/-! ## C9 — live track swap and the channel gain -/

/-- C9 counterexample: the claim says the swap sequence ends by ramping
the channel volume back to its pre-swap level; but on a playing deck whose
channel gain target is `1/2`, `assignTrackToDeck` ends with gain target
`0.8` (the hardcoded fade-in value of main.js line 86), not `1/2`. -/
theorem assignTrack_gain_cx :
    (assignTrackToDeck playingDeck 2 10 11).gainTarget ≠ playingDeck.gainTarget := by
  have e1 : (assignTrackToDeck playingDeck 2 10 11).gainTarget = 4/5 := by
    simp [assignTrackToDeck, playingDeck, Deck.stop, Deck.loadTrack, Deck.play, Deck.init]
  have e2 : playingDeck.gainTarget = 1/2 := rfl
  rw [e1, e2]
  norm_num

/-- C9 (amended): on a deck that is playing when the swap starts, the
`assignTrackToDeck` sequence (fade out to 0, stop, load, play, fade in)
ends with the channel gain target at the fixed default `0.8`, regardless
of the pre-swap channel gain; it equals the pre-swap level exactly when
that level was already `0.8`. -/
theorem assignTrack_sets_default_gain (d : Deck) (buf : Nat) (tStop tPlay : ℚ)
    (h : d.isPlaying = true) :
    (assignTrackToDeck d buf tStop tPlay).gainTarget = 4/5
    ∧ ((assignTrackToDeck d buf tStop tPlay).gainTarget = d.gainTarget
        ↔ d.gainTarget = 4/5) := by
  have e : (assignTrackToDeck d buf tStop tPlay).gainTarget = 4/5 := by
    rcases hs : d.source with _ | s <;>
      simp [assignTrackToDeck, h, hs, Deck.stop, Deck.loadTrack, Deck.play]
  refine ⟨e, ?_⟩
  rw [e]
  exact ⟨fun hg => hg.symm, fun hg => hg.symm⟩

/-- Witness for C9 (amended) on `playingDeck` (pre-swap gain `1/2`). -/
theorem assignTrack_sets_default_gain_witness :
    (assignTrackToDeck playingDeck 2 10 11).gainTarget = 4/5
    ∧ ((assignTrackToDeck playingDeck 2 10 11).gainTarget = playingDeck.gainTarget
        ↔ playingDeck.gainTarget = 4/5) :=
  assignTrack_sets_default_gain playingDeck 2 10 11 rfl

/-! ## C3 — play/stop/play round trip -/

/-- C3: from any deck state satisfying the deck invariant (a playing deck
has a live source), `loadTrack(buf)` at `t0`, `play()` at `t1`, `stop()`
at `t2`, `play()` at `t3` leaves `pauseTime = t2 - t1` captured at the
stop (the elapsed play time, since the fresh load started the source at
offset 0 at `t1`), and the second `play()` starts a source at exactly that
offset — not at the track start whenever `t1 ≠ t2`.  Also, `stop()` when
not `Playing` changes nothing. -/
theorem play_stop_play_resumes (d : Deck) (buf : Nat) (t0 t1 t2 t3 : ℚ)
    (hinv : d.isPlaying = true → d.source ≠ none) :
    (((d.loadTrack t0 buf).play t1).stop t2).pauseTime = t2 - t1
    ∧ ((((d.loadTrack t0 buf).play t1).stop t2).play t3).source
        = some ⟨buf, t2 - t1, d.playbackRate⟩
    ∧ ((((d.loadTrack t0 buf).play t1).stop t2).play t3).isPlaying = true
    ∧ (t1 ≠ t2 → ¬ ((((d.loadTrack t0 buf).play t1).stop t2).play t3).source
        = some ⟨buf, 0, d.playbackRate⟩)
    ∧ (∀ (e : Deck) (now : ℚ), e.isPlaying = false → e.stop now = e) := by
  have hstop : ∀ (e : Deck) (now : ℚ), e.isPlaying = false → e.stop now = e := by
    intro e now he
    rcases hs : e.source with _ | s <;> simp [Deck.stop, he, hs]
  have hload : (d.loadTrack t0 buf).isPlaying = false := by
    rcases hp : d.isPlaying with _ | _
    · rcases hs : d.source with _ | s <;>
        simp [Deck.loadTrack, Deck.stop, hp, hs]
    · rcases hs : d.source with _ | s
      · exact absurd hs (hinv hp)
      · simp [Deck.loadTrack, Deck.stop, hp, hs]
  have hrate : (d.loadTrack t0 buf).playbackRate = d.playbackRate := by
    rcases hp : d.isPlaying with _ | _ <;> rcases hs : d.source with _ | s <;>
      simp [Deck.loadTrack, Deck.stop, hp, hs]
  have hbuf : (d.loadTrack t0 buf).audioBuffer = some buf := by
    rcases hp : d.isPlaying with _ | _ <;> rcases hs : d.source with _ | s <;>
      simp [Deck.loadTrack, Deck.stop, hp, hs]
  have hpause : (d.loadTrack t0 buf).pauseTime = 0 := by
    rcases hp : d.isPlaying with _ | _ <;> rcases hs : d.source with _ | s <;>
      simp [Deck.loadTrack, Deck.stop, hp, hs]
  -- the first play(): starts at offset 0, startTime t1
  set d1 := d.loadTrack t0 buf with hd1
  have hplay1 : d1.play t1 =
      { d1 with
        source := some ⟨buf, 0, d.playbackRate⟩
        startTime := t1
        isPlaying := true } := by
    rw [Deck.play, hbuf]
    simp [hload, hpause, hrate]
  -- the stop(): captures pauseTime = t2 - t1
  have hstop2 : (d1.play t1).stop t2 =
      { d1 with
        source := none
        startTime := t1
        pauseTime := t2 - t1
        isPlaying := false } := by
    rw [hplay1, Deck.stop]
  -- the second play(): starts at offset t2 - t1
  have hplay2 : ((d1.play t1).stop t2).play t3 =
      { d1 with
        source := some ⟨buf, t2 - t1, d.playbackRate⟩
        startTime := t3 - (t2 - t1)
        pauseTime := t2 - t1
        isPlaying := true } := by
    rw [hstop2, Deck.play]
    simp [hbuf, hrate]
  refine ⟨by rw [hstop2], by rw [hplay2], by rw [hplay2], ?_, hstop⟩
  intro hne hcon
  rw [hplay2] at hcon
  simp only [Option.some.injEq, Source.mk.injEq] at hcon
  exact hne (by linarith [hcon.2.1])

/-- Witness for C3 from a fresh deck with payload `7`, played at `t1 = 2`,
stopped at `t2 = 5`, resumed at `t3 = 9`: resumes at offset `3`. -/
theorem play_stop_play_resumes_witness :
    (((Deck.init.loadTrack 0 7).play 2).stop 5).pauseTime = 5 - 2
    ∧ ((((Deck.init.loadTrack 0 7).play 2).stop 5).play 9).source
        = some ⟨7, 5 - 2, Deck.init.playbackRate⟩
    ∧ ((((Deck.init.loadTrack 0 7).play 2).stop 5).play 9).isPlaying = true
    ∧ ((2:ℚ) ≠ 5 → ¬ ((((Deck.init.loadTrack 0 7).play 2).stop 5).play 9).source
        = some ⟨7, 0, Deck.init.playbackRate⟩)
    ∧ (∀ (e : Deck) (now : ℚ), e.isPlaying = false → e.stop now = e) :=
  play_stop_play_resumes Deck.init 7 0 2 5 9 (fun h => by cases h)

/-! ## C5 — resolve is caching-idempotent -/

/-- Cache-hit behaviour of `loadPreset`: on a library whose entry for `id`
is a preset with a cached payload, the call returns that payload, changes
nothing and performs no fetch, for every environment. -/
theorem loadPreset_cache_hit (lib : TrackLibrary) (env : String → Except Unit Nat)
    (id : String) (track : Track) (b : Nat)
    (htr : lib.tracks id = some track) (hsrc : track.sourceType = TrackSource.preset)
    (hl : track.isLoaded = true) (hb : track.buffer = some b) :
    lib.loadPreset env id = ⟨.ok b, lib, 0⟩ := by
  unfold TrackLibrary.loadPreset
  simp [htr, hsrc, hl, hb]

/-- Postcondition of a successful `loadPreset`: the resulting library's
entry for `id` is a preset with exactly the returned payload cached. -/
theorem loadPreset_ok_state (lib : TrackLibrary) (env : String → Except Unit Nat)
    (id : String) (b : Nat) (h : (lib.loadPreset env id).result = .ok b) :
    ∃ track, ((lib.loadPreset env id).lib).tracks id = some track
      ∧ track.sourceType = TrackSource.preset
      ∧ track.isLoaded = true ∧ track.buffer = some b := by
  unfold TrackLibrary.loadPreset at h ⊢
  rcases htr : lib.tracks id with _ | track <;> rw [htr] at h
  · cases h
  · by_cases hsrc : track.sourceType = TrackSource.preset
    · simp only [hsrc, ne_eq, not_true_eq_false, ite_false] at h ⊢
      have hfetch : ∀ hh : (match env track.url with
          | .error _ => (⟨.error .loadFailed, lib, 1⟩ : ResolveResult)
          | .ok buf =>
            ⟨.ok buf, lib.set id
              ⟨track.name, TrackSource.preset, track.url, some buf, true⟩, 1⟩).result
            = .ok b,
          ∃ tr, ((match env track.url with
            | .error _ => (⟨.error .loadFailed, lib, 1⟩ : ResolveResult)
            | .ok buf =>
              ⟨.ok buf, lib.set id
                ⟨track.name, TrackSource.preset, track.url, some buf, true⟩, 1⟩).lib).tracks id
              = some tr
            ∧ tr.sourceType = TrackSource.preset ∧ tr.isLoaded = true ∧ tr.buffer = some b := by
        intro hh
        rcases he : env track.url with _ | buf <;> rw [he] at hh
        · cases hh
        · cases hh
          exact ⟨_, TrackLibrary.set_tracks_self lib id _, rfl, rfl, rfl⟩
      rcases hl : track.isLoaded with _ | _ <;> rcases hb : track.buffer with _ | b' <;>
        rw [hl, hb] at h
      · exact hfetch h
      · exact hfetch h
      · exact hfetch h
      · cases h
        exact ⟨track, htr, hsrc, hl, hb⟩
    · simp [hsrc] at h

/-- C5: once a `loadPreset(id)` call has succeeded with payload `b`, every
subsequent `loadPreset(id)` on the resulting library returns that same
cached payload, leaves the library unchanged and performs zero additional
fetch/decode operations, whatever the environment of the later call — so
a given identifier never maps to more than one decoded payload. -/
theorem loadPreset_caching_idempotent (lib : TrackLibrary)
    (env : String → Except Unit Nat) (id : String) (b : Nat)
    (h : (lib.loadPreset env id).result = .ok b)
    (env2 : String → Except Unit Nat) :
    ((lib.loadPreset env id).lib).loadPreset env2 id
      = ⟨.ok b, (lib.loadPreset env id).lib, 0⟩ := by
  obtain ⟨track, htr, hsrc, hl, hb⟩ := loadPreset_ok_state lib env id b h
  exact loadPreset_cache_hit _ env2 id track b htr hsrc hl hb

/-- Witness for C5: on the library holding the uncached preset
`"preset_1"`, a first resolve in `envOk7` succeeds, and the theorem then
pins the second resolve (in the failing environment, so necessarily
fetch-free) to the cached payload `7` with the state unchanged. -/
theorem loadPreset_caching_idempotent_witness :
    (libUncached.loadPreset envOk7 "preset_1").lib.loadPreset envFail "preset_1"
      = ⟨.ok 7, (libUncached.loadPreset envOk7 "preset_1").lib, 0⟩ :=
  loadPreset_caching_idempotent libUncached envOk7 "preset_1" 7 rfl envFail

/-! ## C7 — release (`removeTrack`) per track kind -/

/-- C7 counterexample: the claim says that for a preset track `release`
"discards only the cached payload while keeping the descriptor"; but on a
library whose preset `"preset_1"` has payload `7` cached, `removeTrack`
returns `false` and leaves the entry — cached payload included — fully
intact. -/
theorem removeTrack_preset_keeps_payload_cx :
    (libCached.removeTrack "preset_1").1 = false
    ∧ (libCached.removeTrack "preset_1").2.tracks "preset_1" = some mistCached
    ∧ mistCached.buffer = some 7 := by
  refine ⟨rfl, rfl, rfl⟩

/-- C7 (amended): `removeTrack(id)` removes a user-uploaded (ingested)
track entirely — descriptor and cached payload — and returns `true`; for
a preset track it is a complete no-op returning `false` (descriptor *and*
cached payload are both kept; only `clearCache` discards preset payloads);
for an unknown id it is a no-op returning `false`. -/
theorem removeTrack_behavior (lib : TrackLibrary) (id : String) :
    (lib.tracks id = none → lib.removeTrack id = (false, lib))
    ∧ (∀ t, lib.tracks id = some t → t.sourceType = TrackSource.preset →
        lib.removeTrack id = (false, lib))
    ∧ (∀ t, lib.tracks id = some t → t.sourceType = TrackSource.user_upload →
        lib.removeTrack id = (true, lib.erase id)
          ∧ (lib.erase id).tracks id = none) := by
  refine ⟨?_, ?_, ?_⟩
  · intro h
    unfold TrackLibrary.removeTrack
    rw [h]
  · intro t ht hsrc
    unfold TrackLibrary.removeTrack
    rw [ht]
    simp [hsrc]
  · intro t ht hsrc
    unfold TrackLibrary.removeTrack
    rw [ht]
    simp only [hsrc]
    exact ⟨rfl, TrackLibrary.erase_tracks_self lib id⟩

/-- Witness for C7 (amended) on `libCached`: removing the user track
`"user_1"` succeeds and erases it. -/
theorem removeTrack_behavior_witness :
    libCached.removeTrack "user_1" = (true, libCached.erase "user_1")
    ∧ (libCached.erase "user_1").tracks "user_1" = none :=
  (removeTrack_behavior libCached "user_1").2.2 userTrack rfl rfl

/-! ## C8 — resolve failure is atomic -/

/-- C8: whenever `loadPreset(id)` fails — unknown id, non-preset id, or a
fetch/decode failure — the error is surfaced to the caller as the thrown
`LoadError` (never swallowed), the library state after the call is exactly
the state before it (no payload stored, no `isLoaded` change, no
descriptor added or removed), and an immediate retry behaves exactly like
a fresh call on the original state. -/
theorem loadPreset_failure_atomic (lib : TrackLibrary)
    (env : String → Except Unit Nat) (id : String) (e : LoadError)
    (h : (lib.loadPreset env id).result = .error e) :
    (lib.loadPreset env id).lib = lib
    ∧ (∀ env2, ((lib.loadPreset env id).lib).loadPreset env2 id = lib.loadPreset env2 id) := by
  have hlib : (lib.loadPreset env id).lib = lib := by
    unfold TrackLibrary.loadPreset at h ⊢
    rcases htr : lib.tracks id with _ | track
    · rfl
    · rw [htr] at h
      by_cases hsrc : track.sourceType = TrackSource.preset
      · simp only [hsrc, ne_eq, not_true_eq_false, ite_false] at h ⊢
        rcases hl : track.isLoaded with _ | _ <;> rcases hb : track.buffer with _ | b' <;>
          rw [hl, hb] at h
        · rcases he : env track.url with _ | buf <;> rw [he] at h <;> cases h
        · rcases he : env track.url with _ | buf <;> rw [he] at h <;> cases h
        · rcases he : env track.url with _ | buf <;> rw [he] at h <;> cases h
      · simp [hsrc]
  exact ⟨hlib, fun env2 => by rw [hlib]⟩

/-- Witness for C8: resolving the unknown id `"nope"` on `libCached`
fails with `NotFound` and the theorem applies. -/
theorem loadPreset_failure_atomic_witness :
    (libCached.loadPreset envFail "nope").lib = libCached
    ∧ (∀ env2, ((libCached.loadPreset envFail "nope").lib).loadPreset env2 "nope"
        = libCached.loadPreset env2 "nope") :=
  loadPreset_failure_atomic libCached envFail "nope" (.notFound "nope") rfl

/-! ## C10 — concurrent resolves of the same uncached id -/

/-- Phase 1 of `loadPreset` on an uncached preset id reaches the `await`:
it reports "must fetch" carrying the captured descriptor. -/
theorem loadPresetPhase1_uncached (lib : TrackLibrary) (id : String) (track : Track)
    (htr : lib.tracks id = some track)
    (hsrc : track.sourceType = TrackSource.preset)
    (hun : track.isLoaded = false ∨ track.buffer = none) :
    lib.loadPresetPhase1 id = .mustFetch track := by
  unfold TrackLibrary.loadPresetPhase1
  rw [htr]
  simp only [hsrc, ne_eq, not_true_eq_false, ite_false]
  rcases hun with hu | hu
  · rw [hu]
  · rw [hu]
    rcases hl : track.isLoaded with _ | _ <;> rfl

/-- C10 counterexample: on the library whose preset `"preset_1"` is
uncached, two interleaved `loadPreset("preset_1")` calls whose fetches
decode to payloads `7` and `8` perform **two** fetch/decode operations
(not one), and the callers receive different payloads — there is no
in-flight-request table in trackLibrary.js. -/
theorem concurrent_resolve_cx :
    (libUncached.concurrentLoadPreset "preset_1" envOk7 envOk8).fetches = 2
    ∧ ¬ (libUncached.concurrentLoadPreset "preset_1" envOk7 envOk8).fetches = 1
    ∧ (libUncached.concurrentLoadPreset "preset_1" envOk7 envOk8).result1 = .ok 7
    ∧ (libUncached.concurrentLoadPreset "preset_1" envOk7 envOk8).result2 = .ok 8
    ∧ (Except.ok 7 : Except LoadError Nat) ≠ .ok 8 := by
  refine ⟨rfl, by decide, rfl, rfl, by simp⟩

/-- C10 (amended): two concurrent `loadPreset` calls for the same uncached
preset id each trigger their own fetch/decode — two operations in total,
since the cache check precedes the `await` and nothing records the
in-flight request — each caller receives the outcome of its *own* fetch,
and on success the cache ends up holding the *second* completion's
payload. -/
theorem concurrent_resolve_duplicates (lib : TrackLibrary) (id : String)
    (env1 env2 : String → Except Unit Nat) (track : Track)
    (htr : lib.tracks id = some track)
    (hsrc : track.sourceType = TrackSource.preset)
    (hun : track.isLoaded = false ∨ track.buffer = none) :
    (lib.concurrentLoadPreset id env1 env2).fetches = 2
    ∧ (lib.concurrentLoadPreset id env1 env2).result1
        = (match env1 track.url with
           | .error _ => .error .loadFailed
           | .ok b => .ok b)
    ∧ (lib.concurrentLoadPreset id env1 env2).result2
        = (match env2 track.url with
           | .error _ => .error .loadFailed
           | .ok b => .ok b)
    ∧ (∀ b2, env2 track.url = .ok b2 →
        (lib.concurrentLoadPreset id env1 env2).lib.tracks id
          = some { track with buffer := some b2, isLoaded := true }) := by
  have hphase := loadPresetPhase1_uncached lib id track htr hsrc hun
  unfold TrackLibrary.concurrentLoadPreset
  rw [hphase]
  refine ⟨rfl, ?_, ?_, ?_⟩
  · rcases h1 : env1 track.url with _ | b1 <;>
      simp [TrackLibrary.loadPresetPhase2, h1]
  · rcases h2 : env2 track.url with _ | b2 <;>
      simp [TrackLibrary.loadPresetPhase2, h2]
  · intro b2 h2
    rcases h1 : env1 track.url with _ | b1 <;>
      simp [TrackLibrary.loadPresetPhase2, h1, h2, TrackLibrary.set_tracks_self]

/-- Witness for C10 (amended) on the uncached `"preset_1"` with decode
outcomes `7` and `8`. -/
theorem concurrent_resolve_duplicates_witness :
    (libUncached.concurrentLoadPreset "preset_1" envOk7 envOk8).fetches = 2
    ∧ (libUncached.concurrentLoadPreset "preset_1" envOk7 envOk8).result1
        = (match envOk7 mistUncached.url with
           | .error _ => .error .loadFailed
           | .ok b => .ok b)
    ∧ (libUncached.concurrentLoadPreset "preset_1" envOk7 envOk8).result2
        = (match envOk8 mistUncached.url with
           | .error _ => .error .loadFailed
           | .ok b => .ok b)
    ∧ (∀ b2, envOk8 mistUncached.url = .ok b2 →
        (libUncached.concurrentLoadPreset "preset_1" envOk7 envOk8).lib.tracks "preset_1"
          = some { mistUncached with buffer := some b2, isLoaded := true }) :=
  concurrent_resolve_duplicates libUncached "preset_1" envOk7 envOk8 mistUncached
    rfl rfl (Or.inl rfl)

/-! ## C1 — bipolar filter zone mapping -/

/-- C1: for every normalized `v ∈ [0,1]`, `setFilter` is a pure
(deterministic) mapping of `v` alone, and the zone of `v` fixes mode and
cutoff target: `|v − 0.5| < 0.05` gives bypass (a low-pass node parked at
20 kHz with the minimum resonance `Q = 0.1`); `v < 0.45` gives low-pass
with cutoff `250·(20000/250)^(v/0.45)`; `v > 0.55` gives high-pass with
cutoff `20·(8000/20)^((v−0.55)/0.45)`.  At the zone boundaries the sweep
formulas attain their no-filtering endpoints — at `v = 0.45` the low-pass
cutoff is exactly the 20 kHz bypass value, and at `v = 0.55` the
high-pass cutoff is exactly 20 Hz, the bottom of the audible band, a
setting functionally equivalent to bypass — so the audible mapping is
continuous across both boundaries. -/
theorem setFilter_zone_mapping (v : ℚ) (h0 : 0 ≤ v) (h1 : v ≤ 1) :
    (|v - 1/2| < 1/20 →
      (setFilter v).stateType = FilterMode.bypass
      ∧ (setFilter v).nodeType = BiquadType.lowpass
      ∧ (setFilter v).freqTarget = 20000
      ∧ (setFilter v).qTarget = 1/10)
    ∧ (v < 9/20 →
      (setFilter v).stateType = FilterMode.lowpass
      ∧ (setFilter v).nodeType = BiquadType.lowpass
      ∧ (setFilter v).freqTarget = 250 * (20000/250 : ℝ) ^ ((v : ℝ) / (9/20))
      ∧ (setFilter v).qTarget = 1)
    ∧ (11/20 < v →
      (setFilter v).stateType = FilterMode.highpass
      ∧ (setFilter v).nodeType = BiquadType.highpass
      ∧ (setFilter v).freqTarget = 20 * (8000/20 : ℝ) ^ (((v : ℝ) - 11/20) / (9/20))
      ∧ (setFilter v).qTarget = 1)
    ∧ ((setFilter (9/20)).stateType = FilterMode.lowpass
      ∧ (setFilter (9/20)).freqTarget = 20000)
    ∧ ((setFilter (11/20)).stateType = FilterMode.highpass
      ∧ (setFilter (11/20)).freqTarget = 20) := by
  refine ⟨?_, ?_, ?_, ?_, ?_⟩
  · intro hb
    simp only [setFilter]
    rw [if_pos hb]
    exact ⟨rfl, rfl, rfl, rfl⟩
  · intro hv
    have hnb : ¬ (|v - (1/2 : ℚ)| < 1/20) := by
      intro hc
      rw [abs_lt] at hc
      linarith [hc.1]
    have hlt : v < (1/2 : ℚ) := by linarith
    simp only [setFilter]
    rw [if_neg hnb, if_pos hlt]
    refine ⟨rfl, rfl, ?_, rfl⟩
    push_cast
    norm_num
  · intro hv
    have hnb : ¬ (|v - (1/2 : ℚ)| < 1/20) := by
      intro hc
      rw [abs_lt] at hc
      linarith [hc.2]
    have hge : ¬ (v < (1/2 : ℚ)) := by linarith
    simp only [setFilter]
    rw [if_neg hnb, if_neg hge]
    refine ⟨rfl, rfl, ?_, rfl⟩
    push_cast
    ring_nf
  · have hnb : ¬ (|(9/20 : ℚ) - 1/2| < 1/20) := by
      rw [abs_lt]
      intro hc
      linarith [hc.1]
    have hlt : (9/20 : ℚ) < 1/2 := by norm_num
    simp only [setFilter]
    rw [if_neg hnb, if_pos hlt]
    refine ⟨rfl, ?_⟩
    have hexp : ((9:ℚ)/20 / (1/2 - 1/20) : ℚ) = 1 := by norm_num
    rw [hexp, Rat.cast_one, Real.rpow_one]
    norm_num
  · have hnb : ¬ (|(11/20 : ℚ) - 1/2| < 1/20) := by
      rw [abs_lt]
      intro hc
      linarith [hc.2]
    have hge : ¬ ((11/20 : ℚ) < 1/2) := by norm_num
    simp only [setFilter]
    rw [if_neg hnb, if_neg hge]
    refine ⟨rfl, ?_⟩
    have hexp : (((11:ℚ)/20 - 1/2 - 1/20) / (1/2 - 1/20) : ℚ) = 0 := by norm_num
    rw [hexp, Rat.cast_zero, Real.rpow_zero]
    norm_num

/-- Witness for C1 at `v = 1/5` (low-pass zone). -/
theorem setFilter_zone_mapping_witness :
    ((1/5 : ℚ) < 9/20)
    ∧ ((setFilter (1/5)).stateType = FilterMode.lowpass
      ∧ (setFilter (1/5)).nodeType = BiquadType.lowpass
      ∧ (setFilter (1/5)).freqTarget = 250 * (20000/250 : ℝ) ^ (((1/5 : ℚ) : ℝ) / (9/20))
      ∧ (setFilter (1/5)).qTarget = 1) :=
  ⟨by norm_num,
   (setFilter_zone_mapping (1/5) (by norm_num) (by norm_num)).2.1 (by norm_num)⟩
